import Mathlib

/-!
Verification of the service-desk ticketing core: data model, ticket
numbering policy, lifecycle timestamp policy, aggregation metrics and
list filtering, shallowly embedded from the repository's sources
(`supabase` schema migration, `Reports.tsx`, `TicketDetail.tsx`,
`TicketList.tsx`, `TicketForm.tsx`).

Conventions of the embedding:
- JS/SQL strings are `List Char`; timestamps are `Nat` (milliseconds);
  uuid keys are `Nat`.
- `NULL`/absent values are `Option`.
- JS `Math.round` on a quotient of integers is modelled exactly on the
  rationals it denotes (floor of x + 1/2, ties toward positive infinity).
-/

namespace SD

/-- JS `String.prototype.toLowerCase`, characterwise. -/
def lowerStr (s : List Char) : List Char := s.map Char.toLower

/-- Prefix test on character lists: `strStarts pre s` holds when `s`
begins with `pre`.  Used to embed SQL `LIKE 'pre%'`. -/
def strStarts : List Char → List Char → Bool
  | [], _ => true
  | _ :: _, [] => false
  | a :: as, b :: bs => a == b && strStarts as bs

/-- JS `String.prototype.includes`: `containsSub needle hay` holds when
`needle` occurs contiguously inside `hay`. -/
def containsSub (needle : List Char) : List Char → Bool
  | [] => strStarts needle []
  | c :: t => strStarts needle (c :: t) || containsSub needle t

/-- Whitespace characters removed by JS `String.prototype.trim`. -/
def jsSpace (c : Char) : Bool :=
  c == ' ' || c == '\t' || c == '\n' || c == '\r'

/-- JS `String.prototype.trim`: strip whitespace at both ends. -/
def trimStr (s : List Char) : List Char :=
  ((s.dropWhile jsSpace).reverse.dropWhile jsSpace).reverse

/-- JS `Math.round (a / b)` for integers `a`, `b` with `b > 0`:
the floor of `a / b + 1 / 2`, i.e. nearest integer with ties rounding
toward positive infinity. -/
def jsRound (a b : Int) : Int := (2 * a + b) / (2 * b)

/-- PostgreSQL `LPAD(s, n, fill)`: pad on the left to length `n`;
a string already longer than `n` is truncated on the right. -/
def lpad (s : List Char) (n : Nat) (fill : Char) : List Char :=
  if n ≤ s.length then s.take n else List.replicate (n - s.length) fill ++ s

/-- Decimal rendering helper (PostgreSQL `integer::text`), structural on
a fuel argument so that it reduces in the kernel. -/
def natToDecAux : Nat → Nat → List Char → List Char
  | 0, _, acc => acc
  | fuel + 1, n, acc =>
    if n < 10 then Nat.digitChar n :: acc
    else natToDecAux fuel (n / 10) (Nat.digitChar (n % 10) :: acc)

/-- Decimal rendering of a natural number (PostgreSQL `integer::text`). -/
def natToDec (n : Nat) : List Char := natToDecAux (n + 1) n []

/-! ## Data model (schema migration and `supabase.ts` types) -/

/-- Row of `statuses`. -/
structure Status where
  id : Nat
  name : List Char
  order : Nat
  color : List Char
  is_closed : Bool
  created_at : Nat
deriving DecidableEq

/-- Row of `categories`. -/
structure Category where
  id : Nat
  name : List Char
  description : List Char
  color : List Char
  created_at : Nat
deriving DecidableEq

/-- Row of `priorities`. -/
structure Priority where
  id : Nat
  name : List Char
  level : Nat
  color : List Char
  created_at : Nat
deriving DecidableEq

/-- Row of `tickets`. -/
structure Ticket where
  id : Nat
  ticket_number : List Char
  title : List Char
  description : List Char
  category_id : Nat
  priority_id : Nat
  status_id : Nat
  requester_name : List Char
  requester_email : List Char
  assigned_to : List Char
  created_at : Nat
  updated_at : Nat
  resolved_at : Option Nat
  closed_at : Option Nat
deriving DecidableEq

/-- A ticket joined with its category, priority and status rows
(`TicketWithRelations` in `supabase.ts`). -/
structure TicketWithRelations extends Ticket where
  categories : Category
  priorities : Priority
  statuses : Status
deriving DecidableEq

/-- Row of `ticket_comments`; the database-generated `id` is omitted. -/
structure TicketComment where
  ticket_id : Nat
  comment : List Char
  author_name : List Char
  is_internal : Bool
  created_at : Nat
deriving DecidableEq

/-! ## Aggregation engine (`Reports.tsx`) -/

/-- `filterTicketsByDate` from `Reports.tsx`: optional inclusive range on
`created_at`; with both bounds absent the list is returned unchanged. -/
def filterTicketsByDate (startDate endDate : Option Nat)
    (tickets : List TicketWithRelations) : List TicketWithRelations :=
  match startDate, endDate with
  | none, none => tickets
  | _, _ =>
    tickets.filter fun ticket =>
      match startDate, endDate with
      | some s, some e =>
        decide (s ≤ ticket.created_at) && decide (ticket.created_at ≤ e)
      | some s, none => decide (s ≤ ticket.created_at)
      | none, some e => decide (ticket.created_at ≤ e)
      | none, none => true

/-- The sub-list of tickets with `resolved_at` set
(`resolvedTickets` in `calculateMetrics`). -/
def resolvedOf (l : List TicketWithRelations) : List TicketWithRelations :=
  l.filter fun t => t.resolved_at.isSome

/-- `totalTime` in `calculateMetrics`: sum over the resolved tickets of
`resolved_at - created_at`, in milliseconds. -/
def totalResolutionTime (l : List TicketWithRelations) : Int :=
  (resolvedOf l).foldl
    (fun sum ticket =>
      sum + (((ticket.resolved_at.getD 0 : Nat) : Int) - (ticket.created_at : Int)))
    0

/-- The metrics record produced by `calculateMetrics` in `Reports.tsx`.
The by-name breakdown objects are modelled extensionally as count
functions. -/
structure Metrics where
  total : Nat
  resolved : Nat
  closed : Nat
  openCount : Nat
  inProgress : Nat
  avgResolutionHours : Int
  byCategory : List Char → Nat
  byPriority : List Char → Nat

/-- `calculateMetrics` from `Reports.tsx`, over the date-filtered ticket
list. `avgResolutionHours` stays `0` when no ticket has `resolved_at`. -/
def calculateMetrics (filteredTickets : List TicketWithRelations) : Metrics :=
  let total := filteredTickets.length
  let resolved := (filteredTickets.filter fun t => t.resolved_at.isSome).length
  let closed := (filteredTickets.filter fun t => t.closed_at.isSome).length
  let openCount :=
    (filteredTickets.filter fun t => t.statuses.name == "Open".toList).length
  let inProgress :=
    (filteredTickets.filter fun t => t.statuses.name == "In Progress".toList).length
  let avgResolutionHours : Int :=
    if 0 < (resolvedOf filteredTickets).length then
      jsRound (totalResolutionTime filteredTickets)
        (1000 * 60 * 60 * ((resolvedOf filteredTickets).length : Int))
    else 0
  let byCategory := fun name =>
    (filteredTickets.filter fun t => t.categories.name == name).length
  let byPriority := fun name =>
    (filteredTickets.filter fun t => t.priorities.name == name).length
  ⟨total, resolved, closed, openCount, inProgress, avgResolutionHours,
    byCategory, byPriority⟩

/-- The metrics computed by the Reports view for a snapshot and a date
range (`metrics = calculateMetrics()` over `filterTicketsByDate()`). -/
def metricsFor (startDate endDate : Option Nat)
    (tickets : List TicketWithRelations) : Metrics :=
  calculateMetrics (filterTicketsByDate startDate endDate tickets)

/-- The Avg Resolution card: `avgResolutionHours > 0 ? avgResolutionHours
: 'N/A'`; `none` stands for the string N/A. -/
def avgResolutionDisplay (m : Metrics) : Option Int :=
  if 0 < m.avgResolutionHours then some m.avgResolutionHours else none

/-- The Resolution Rate summary figure:
`total > 0 ? Math.round((resolved / total) * 100) : 0`. -/
def resolutionRatePct (m : Metrics) : Int :=
  if 0 < m.total then jsRound ((m.resolved : Int) * 100) (m.total : Int) else 0

/-- The Closure Rate summary figure:
`total > 0 ? Math.round((closed / total) * 100) : 0`. -/
def closureRatePct (m : Metrics) : Int :=
  if 0 < m.total then jsRound ((m.closed : Int) * 100) (m.total : Int) else 0

/-! ## Ticket list filtering (`TicketList.tsx`) -/

/-- The filter state of `TicketList`; `none` models the empty string /
"All ..." selections, which the code treats as no constraint. -/
structure TicketFilter where
  searchTerm : Option (List Char)
  selectedCategory : Option Nat
  selectedPriority : Option Nat
  selectedStatus : Option Nat

/-- The search predicate inside `filterTickets`: the lowercased term
occurs in the lowercased ticket number, title, description or requester
name. -/
def matchesSearch (term : List Char) (ticket : TicketWithRelations) : Bool :=
  containsSub term (lowerStr ticket.ticket_number) ||
  containsSub term (lowerStr ticket.title) ||
  containsSub term (lowerStr ticket.description) ||
  containsSub term (lowerStr ticket.requester_name)

/-- `filterTickets` from `TicketList.tsx`: the four optional filters
applied in sequence. -/
def filterTickets (f : TicketFilter)
    (tickets : List TicketWithRelations) : List TicketWithRelations :=
  let l1 := match f.searchTerm with
    | none => tickets
    | some searchTerm =>
      tickets.filter fun ticket => matchesSearch (lowerStr searchTerm) ticket
  let l2 := match f.selectedCategory with
    | none => l1
    | some c => l1.filter fun ticket => ticket.category_id == c
  let l3 := match f.selectedPriority with
    | none => l2
    | some p => l2.filter fun ticket => ticket.priority_id == p
  match f.selectedStatus with
  | none => l3
  | some s => l3.filter fun ticket => ticket.status_id == s

/-- Display order requested by `loadTickets`: `created_at` descending. -/
def createdDesc (a b : TicketWithRelations) : Prop :=
  b.created_at ≤ a.created_at

instance : DecidableRel createdDesc := fun a b =>
  inferInstanceAs (Decidable (b.created_at ≤ a.created_at))

instance : IsTotal TicketWithRelations createdDesc :=
  ⟨fun a b => Nat.le_total b.created_at a.created_at⟩

instance : IsTrans TicketWithRelations createdDesc :=
  ⟨fun _ _ _ hab hbc => Nat.le_trans hbc hab⟩

/-- `loadTickets`: the snapshot as delivered by the store, ordered by
`created_at` descending (`.order('created_at', ascending: false)`). -/
def loadTickets (snapshot : List TicketWithRelations) : List TicketWithRelations :=
  snapshot.insertionSort createdDesc

/-- The ticket list surface: load ordered, then filter client-side. -/
def listTickets (f : TicketFilter)
    (snapshot : List TicketWithRelations) : List TicketWithRelations :=
  filterTickets f (loadTickets snapshot)

/-! ## Ticket numbering policy (schema migration) -/

/-- The pattern stem `'SD-' || date_part || '-'` used both to build the
new number and in the `LIKE` count. -/
def ticketNumberStem (datePart : List Char) : List Char :=
  "SD-".toList ++ datePart ++ "-".toList

/-- `generate_ticket_number()`: count the existing numbers carrying
today's stem (`LIKE 'SD-' || date_part || '-%'`), add one, and append
the `LPAD`-ded decimal sequence number to the stem. -/
def generate_ticket_number (datePart : List Char)
    (existing : List (List Char)) : List Char :=
  let sequence_num :=
    (existing.countP fun tn => strStarts (ticketNumberStem datePart) tn) + 1
  ticketNumberStem datePart ++ lpad (natToDec sequence_num) 4 '0'

/-- `set_ticket_number()` trigger: generate only when the supplied
number is `NULL` or the empty string. -/
def set_ticket_number (datePart : List Char) (existing : List (List Char))
    (supplied : Option (List Char)) : List Char :=
  match supplied with
  | none => generate_ticket_number datePart existing
  | some s => if s == [] then generate_ticket_number datePart existing else s

/-! ## Ticket mutation surface (`TicketDetail.tsx` and the
`trigger_update_ticket_timestamp` trigger) -/

/-- An `UPDATE tickets SET ...` payload: each field either absent or
set. `updated_at` may carry a client-supplied value, which the trigger
overrides. -/
structure TicketUpdate where
  status_id : Option Nat
  assigned_to : Option (List Char)
  resolved_at : Option Nat
  closed_at : Option Nat
  updated_at : Option Nat

/-- The payload setting nothing. -/
def TicketUpdate.empty : TicketUpdate := ⟨none, none, none, none, none⟩

/-- Apply an update payload to a ticket row, field by field. -/
def applyUpdate (t : Ticket) (u : TicketUpdate) : Ticket :=
  { t with
    status_id := u.status_id.getD t.status_id
    assigned_to := u.assigned_to.getD t.assigned_to
    resolved_at := match u.resolved_at with
      | none => t.resolved_at
      | some v => some v
    closed_at := match u.closed_at with
      | none => t.closed_at
      | some v => some v
    updated_at := u.updated_at.getD t.updated_at }

/-- A row `UPDATE` as executed by the store: apply the payload, then the
`update_updated_at` trigger sets `NEW.updated_at := NOW()`. -/
def dbUpdate (u : TicketUpdate) (now : Nat) (t : Ticket) : Ticket :=
  { applyUpdate t u with updated_at := now }

/-- Replace the client-supplied `updated_at` field of a payload. -/
def setUpdatedAt (u : TicketUpdate) (v : Option Nat) : TicketUpdate :=
  { u with updated_at := v }

/-- `handleStatusChange` from `TicketDetail.tsx`: build the update
payload — always `status_id`; `resolved_at = now` when the target
status is named Resolved and the field is unset; `closed_at = now` when
the target status has `is_closed` and the field is unset — then run the
row update. -/
def handleStatusChange (statuses : List Status) (newStatusId : Nat)
    (now : Nat) (t : Ticket) : Ticket :=
  let newStatus := statuses.find? fun s => s.id == newStatusId
  let resolvedUpd : Option Nat :=
    if (newStatus.any fun s => s.name == "Resolved".toList) && t.resolved_at.isNone
    then some now else none
  let closedUpd : Option Nat :=
    if (newStatus.any fun s => s.is_closed) && t.closed_at.isNone
    then some now else none
  dbUpdate ⟨some newStatusId, none, resolvedUpd, closedUpd, none⟩ now t

/-- `handleAssignmentChange` from `TicketDetail.tsx`: update
`assigned_to` only. -/
def handleAssignmentChange (assignee : List Char) (now : Nat)
    (t : Ticket) : Ticket :=
  dbUpdate { TicketUpdate.empty with assigned_to := some assignee } now t

/-! ## Comment surface (`TicketDetail.tsx`) -/

/-- The typed failure the specification prescribes for an add-comment
call with blank text or author. -/
inductive ValidationError where
  | emptyField
deriving DecidableEq

/-- `handleAddComment` from `TicketDetail.tsx`.  The first component is
the failure surfaced to the caller: the handler returns plain `void` on
every path — the blank-input branch is a bare early `return` — so it is
always `none`.  The second component is the resulting comment thread;
the inserted row takes `is_internal := false` (hardcoded) and
`created_at := now` (database default). -/
def handleAddComment (now ticketId : Nat) (author text : List Char)
    (comments : List TicketComment) :
    Option ValidationError × List TicketComment :=
  if trimStr text == [] || trimStr author == [] then (none, comments)
  else (none, comments ++ [⟨ticketId, text, author, false, now⟩])

/-- `addComment` as the specification words it (section 4.4): fails with
a `ValidationError` if text or author is empty after trimming, otherwise
appends a comment stamped `now`.  Stated for comparison with
`handleAddComment`; this is the spec's contract, not the code. -/
def addCommentSpec (now ticketId : Nat) (author text : List Char)
    (isInternal : Bool) (comments : List TicketComment) :
    Except ValidationError (List TicketComment) :=
  if trimStr text = [] ∨ trimStr author = [] then .error .emptyField
  else .ok (comments ++ [⟨ticketId, text, author, isInternal, now⟩])

/-! ## Operation sequences over one ticket -/

/-- The mutating operations the detail view can issue against a ticket:
status changes, assignment changes and comment additions. -/
inductive TicketOp where
  | statusChange (newStatusId : Nat) (now : Nat)
  | assignmentChange (assignee : List Char) (now : Nat)
  | addComment (author text : List Char) (now : Nat)

/-- A ticket row together with its comment thread. -/
structure DeskState where
  ticket : Ticket
  comments : List TicketComment

/-- Apply one operation to the state. -/
def applyOp (statuses : List Status) (st : DeskState) :
    TicketOp → DeskState
  | .statusChange sid now => ⟨handleStatusChange statuses sid now st.ticket, st.comments⟩
  | .assignmentChange a now => ⟨handleAssignmentChange a now st.ticket, st.comments⟩
  | .addComment author text now =>
    ⟨st.ticket, (handleAddComment now st.ticket.id author text st.comments).2⟩

/-- Apply a sequence of operations, left to right. -/
def runOps (statuses : List Status) (st : DeskState) :
    List TicketOp → DeskState
  | [] => st
  | op :: ops => runOps statuses (applyOp statuses st op) ops

/-! ## Claim-side definitions and sample data -/

/-- The number format as claim C3 words it: the decimal digits of the
sequence value, zero-padded on the left to four characters.  Unlike
PostgreSQL's `LPAD`, this never truncates. -/
def claimZeroPad4 (s : List Char) : List Char :=
  List.replicate (4 - s.length) '0' ++ s

/-- Reassign a ticket's current status: both the foreign key and the
joined status row. -/
def setStatus (st : Status) (t : TicketWithRelations) : TicketWithRelations :=
  { t with status_id := st.id, statuses := st }

/-- `n` occurs contiguously inside `h` (propositional form of a
substring match). -/
def IsSub (n h : List Char) : Prop := ∃ l r, h = l ++ n ++ r

/-- The list-filter contract as claim C8 words it: present search text
must occur case-insensitively in one of the four text fields, and each
present foreign-key filter must match exactly; all ANDed, absent
filters unconstrained. -/
def matchesFilterP (f : TicketFilter) (t : TicketWithRelations) : Prop :=
  (∀ st, f.searchTerm = some st →
    (IsSub (lowerStr st) (lowerStr t.ticket_number) ∨
     IsSub (lowerStr st) (lowerStr t.title) ∨
     IsSub (lowerStr st) (lowerStr t.description) ∨
     IsSub (lowerStr st) (lowerStr t.requester_name))) ∧
  (∀ c, f.selectedCategory = some c → t.category_id = c) ∧
  (∀ p, f.selectedPriority = some p → t.priority_id = p) ∧
  (∀ s, f.selectedStatus = some s → t.status_id = s)

/-- Sample reference rows for concrete witnesses. -/
def sampleStatus : Status :=
  ⟨1, "Open".toList, 1, "#3b82f6".toList, false, 0⟩

def sampleCategory : Category :=
  ⟨1, "IT Support".toList, [], "#3b82f6".toList, 0⟩

def samplePriority : Priority :=
  ⟨1, "Low".toList, 1, "#10b981".toList, 0⟩

/-- A concrete joined ticket for witnesses. -/
def sampleTicket (id created : Nat) (resolved closed : Option Nat) :
    TicketWithRelations :=
  ⟨⟨id, "SD-20240101-0001".toList, "printer".toList, "broken".toList, 1, 1, 1,
    "Ann".toList, "ann@x".toList, [], created, created, resolved, closed⟩,
   sampleCategory, samplePriority, sampleStatus⟩

/-- Snapshot with one ticket resolved ten minutes after creation. -/
def quickSnapshot : List TicketWithRelations :=
  [sampleTicket 1 0 (some 600000) none]

/-- Snapshot with three tickets of resolution durations 2h, 4h, 6h. -/
def threeResolvedSnapshot : List TicketWithRelations :=
  [sampleTicket 1 0 (some 7200000) none,
   sampleTicket 2 0 (some 14400000) none,
   sampleTicket 3 0 (some 21600000) none]

/-- Snapshot with two tickets, one resolved and closed. -/
def halfResolvedSnapshot : List TicketWithRelations :=
  [sampleTicket 1 0 (some 7200000) (some 7200000), sampleTicket 2 0 none none]

/-- 9999 distinct existing ticket numbers all carrying the 2024-01-01
stem: the input on which the numbering policy's `LPAD` truncates. -/
def crowdedDay : List (List Char) :=
  (List.range 9999).map fun i => "SD-20240101-".toList ++ List.replicate i '0'

/-- A status named Resolved that is also flagged `is_closed`, for the
one-transition-sets-both-stamps witness. -/
def resolvedClosedStatus : Status :=
  ⟨6, "Resolved".toList, 6, "#10b981".toList, true, 0⟩

/-- A terminal Closed status. -/
def closedStatus : Status :=
  ⟨5, "Closed".toList, 5, "#6b7280".toList, true, 0⟩

/-- A bare ticket row for mutation witnesses. -/
def baseTicket (resolved closed : Option Nat) : Ticket :=
  ⟨1, "SD-20240101-0001".toList, "printer".toList, "broken".toList, 1, 1, 1,
   "Ann".toList, "ann@x".toList, [], 0, 0, resolved, closed⟩

/-- A joined ticket whose text fields do not mention the search term
used in the list-filter witness. -/
def otherTicket : TicketWithRelations :=
  ⟨⟨2, "HELP-1".toList, "email".toList, "down".toList, 1, 1, 1,
    "Bob".toList, "bob@x".toList, [], 200, 200, none, none⟩,
   sampleCategory, samplePriority, sampleStatus⟩

/-- A filter searching for the ticket-number fragment `sd-2024`. -/
def searchFilter : TicketFilter :=
  ⟨some "sd-2024".toList, none, none, none⟩

/-! ## Helper lemmas -/

/-- `jsRound a b` is the nearest integer to `a / b` with ties rounding
up: it is within half of `b` of the exact quotient. -/
theorem jsRound_bounds (a b : Int) (hb : 0 < b) :
    b * (2 * jsRound a b - 1) ≤ 2 * a ∧ 2 * a < b * (2 * jsRound a b + 1) := by
  have h2b : (0 : Int) < 2 * b := by omega
  have hne : (2 * b : Int) ≠ 0 := by omega
  have hkey := Int.ediv_add_emod (2 * a + b) (2 * b)
  have hr0 := Int.emod_nonneg (2 * a + b) hne
  have hrlt := Int.emod_lt_of_pos (2 * a + b) h2b
  unfold jsRound
  constructor <;> nlinarith [hkey, hr0, hrlt]

theorem strStarts_append (p r : List Char) : strStarts p (p ++ r) = true := by
  induction p with
  | nil => rfl
  | cons a as ih => simp [strStarts, ih]

theorem strStarts_iff (n : List Char) :
    ∀ h, strStarts n h = true ↔ ∃ r, h = n ++ r := by
  induction n with
  | nil => intro h; simp [strStarts]
  | cons a as ih =>
    intro h
    cases h with
    | nil => simp [strStarts]
    | cons b bs =>
      simp only [strStarts, Bool.and_eq_true, beq_iff_eq, ih,
        List.cons_append, List.cons.injEq]
      constructor
      · rintro ⟨rfl, r, rfl⟩; exact ⟨r, rfl, rfl⟩
      · rintro ⟨r, rfl, rfl⟩; exact ⟨rfl, r, rfl⟩

theorem containsSub_iff (n : List Char) :
    ∀ h, containsSub n h = true ↔ ∃ l r, h = l ++ n ++ r := by
  intro h
  induction h with
  | nil =>
    simp only [containsSub, strStarts_iff]
    constructor
    · rintro ⟨r, hr⟩; exact ⟨[], r, by simpa using hr⟩
    · rintro ⟨l, r, hr⟩
      rw [eq_comm, List.append_assoc, List.append_eq_nil] at hr
      exact ⟨r, by simp [hr.1, hr.2]⟩
  | cons c t ih =>
    simp only [containsSub, Bool.or_eq_true, strStarts_iff, ih]
    constructor
    · rintro (⟨r, hr⟩ | ⟨l, r, rfl⟩)
      · exact ⟨[], r, by simpa using hr⟩
      · exact ⟨c :: l, r, by simp⟩
    · rintro ⟨l, r, hr⟩
      cases l with
      | nil => exact Or.inl ⟨r, by simpa using hr⟩
      | cons x xs =>
        simp only [List.cons_append, List.cons.injEq] at hr
        exact Or.inr ⟨xs, r, hr.2⟩

theorem natToDecAux_length_le :
    ∀ (fuel n : Nat) (acc : List Char) (m : Nat), n < 10 ^ m → 0 < m →
      (natToDecAux fuel n acc).length ≤ m + acc.length := by
  intro fuel
  induction fuel with
  | zero => intro n acc m _ _; simp [natToDecAux]
  | succ fuel ih =>
    intro n acc m hnm h0
    by_cases h : n < 10
    · simp only [natToDecAux, if_pos h, List.length_cons]
      omega
    · simp only [natToDecAux, if_neg h]
      obtain ⟨m', rfl⟩ : ∃ m', m = m' + 1 := ⟨m - 1, by omega⟩
      have hm' : 0 < m' := by
        rcases Nat.eq_zero_or_pos m' with h0' | h0'
        · subst h0'; simp at hnm; omega
        · exact h0'
      have hdiv : n / 10 < 10 ^ m' := by
        have h10 : n < 10 ^ m' * 10 := by rw [← pow_succ]; exact hnm
        exact (Nat.div_lt_iff_lt_mul (by norm_num)).mpr h10
      have := ih (n / 10) (Nat.digitChar (n % 10) :: acc) m' hdiv hm'
      simp only [List.length_cons] at this
      omega

theorem natToDec_length_le (n : Nat) (h : n ≤ 9999) :
    (natToDec n).length ≤ 4 := by
  have h4 : n < 10 ^ 4 := by norm_num; omega
  simpa [natToDec] using natToDecAux_length_le (n + 1) n [] 4 h4 (by norm_num)

theorem lpad4_eq_claimZeroPad4 (s : List Char) (h : s.length ≤ 4) :
    lpad s 4 '0' = claimZeroPad4 s := by
  unfold lpad claimZeroPad4
  by_cases h4 : 4 ≤ s.length
  · rw [if_pos h4, List.take_of_length_le h]
    have h0 : 4 - s.length = 0 := by omega
    rw [h0]
    simp
  · rw [if_neg h4]

theorem calculateMetrics_total (l : List TicketWithRelations) :
    (calculateMetrics l).total = l.length := rfl

theorem calculateMetrics_resolved (l : List TicketWithRelations) :
    (calculateMetrics l).resolved =
      (l.filter fun t => t.resolved_at.isSome).length := rfl

theorem calculateMetrics_closed (l : List TicketWithRelations) :
    (calculateMetrics l).closed =
      (l.filter fun t => t.closed_at.isSome).length := rfl

theorem calculateMetrics_avg (l : List TicketWithRelations) :
    (calculateMetrics l).avgResolutionHours =
      if 0 < (resolvedOf l).length then
        jsRound (totalResolutionTime l)
          (1000 * 60 * 60 * ((resolvedOf l).length : Int))
      else 0 := rfl

theorem filterTicketsByDate_map (s e : Option Nat)
    (f : TicketWithRelations → TicketWithRelations)
    (hf : ∀ t, (f t).created_at = t.created_at) (l : List TicketWithRelations) :
    filterTicketsByDate s e (l.map f) = (filterTicketsByDate s e l).map f := by
  cases s <;> cases e <;>
    simp [filterTicketsByDate, List.filter_map, Function.comp_def, hf]

/-! ## Claim theorems -/

/-- C7: a ticket is in the date-filtered set iff it is in the snapshot,
`created_at ≥ start` whenever `start` is present and `created_at ≤ end`
whenever `end` is present; an absent bound imposes no constraint, and
with both bounds absent the snapshot is returned whole. -/
theorem date_range_filter_spec (s e : Option Nat)
    (tickets : List TicketWithRelations) (t : TicketWithRelations) :
    (t ∈ filterTicketsByDate s e tickets ↔
      t ∈ tickets ∧ (∀ a, s = some a → a ≤ t.created_at) ∧
        (∀ b, e = some b → t.created_at ≤ b)) ∧
    filterTicketsByDate none none tickets = tickets := by
  refine ⟨?_, rfl⟩
  cases s <;> cases e <;>
    simp [filterTicketsByDate, List.mem_filter, and_assoc]

/-- C7 witness: of tickets created 2024-01-01, 2024-01-15 and
2024-02-01, the range [2024-01-01, 2024-01-31] matches exactly the
first two. -/
theorem date_range_filter_spec_witness :
    sampleTicket 1 20240101 none none ∈
        filterTicketsByDate (some 20240101) (some 20240131)
          [sampleTicket 1 20240101 none none, sampleTicket 2 20240115 none none,
           sampleTicket 3 20240201 none none] ∧
    sampleTicket 2 20240115 none none ∈
        filterTicketsByDate (some 20240101) (some 20240131)
          [sampleTicket 1 20240101 none none, sampleTicket 2 20240115 none none,
           sampleTicket 3 20240201 none none] ∧
    sampleTicket 3 20240201 none none ∉
        filterTicketsByDate (some 20240101) (some 20240131)
          [sampleTicket 1 20240101 none none, sampleTicket 2 20240115 none none,
           sampleTicket 3 20240201 none none] := by
  refine ⟨?_, ?_, ?_⟩
  · exact (date_range_filter_spec (some 20240101) (some 20240131) _ _).1.mpr
      ⟨by simp,
        by intro a ha; simp only [Option.some.injEq] at ha; subst ha; decide,
        by intro b hb; simp only [Option.some.injEq] at hb; subst hb; decide⟩
  · exact (date_range_filter_spec (some 20240101) (some 20240131) _ _).1.mpr
      ⟨by simp,
        by intro a ha; simp only [Option.some.injEq] at ha; subst ha; decide,
        by intro b hb; simp only [Option.some.injEq] at hb; subst hb; decide⟩
  · intro hmem
    have h := (date_range_filter_spec (some 20240101) (some 20240131) _ _).1.mp hmem
    exact absurd (h.2.2 20240131 rfl) (by decide)

/-- C1 (amended): over any snapshot and date range, when at least one
matching ticket has `resolved_at` set, `avgResolutionHours` is the
nearest integer (ties toward positive infinity) to the mean of
`resolved_at - created_at` over those tickets, expressed in hours; the
Avg Resolution card shows N/A exactly when `avgResolutionHours` is not
positive — in particular always when no matching ticket has
`resolved_at` set, but also when resolved tickets exist and the mean
rounds to 0 hours. -/
theorem avg_resolution_amended (s e : Option Nat)
    (tickets : List TicketWithRelations) :
    ((resolvedOf (filterTicketsByDate s e tickets)).length = 0 →
      avgResolutionDisplay (metricsFor s e tickets) = none) ∧
    (avgResolutionDisplay (metricsFor s e tickets) = none ↔
      (metricsFor s e tickets).avgResolutionHours ≤ 0) ∧
    (0 < (resolvedOf (filterTicketsByDate s e tickets)).length →
      (1000 * 60 * 60 * ((resolvedOf (filterTicketsByDate s e tickets)).length : Int)) *
          (2 * (metricsFor s e tickets).avgResolutionHours - 1) ≤
        2 * totalResolutionTime (filterTicketsByDate s e tickets) ∧
      2 * totalResolutionTime (filterTicketsByDate s e tickets) <
        (1000 * 60 * 60 * ((resolvedOf (filterTicketsByDate s e tickets)).length : Int)) *
          (2 * (metricsFor s e tickets).avgResolutionHours + 1)) := by
  refine ⟨?_, ?_, ?_⟩
  · intro h0
    simp [metricsFor, avgResolutionDisplay, calculateMetrics_avg, h0]
  · simp only [avgResolutionDisplay]
    split
    · simp only [reduceCtorEq, false_iff]
      omega
    · simp only [true_iff]
      omega
  · intro hpos
    have hhour : (0 : Int) <
        1000 * 60 * 60 * ((resolvedOf (filterTicketsByDate s e tickets)).length : Int) := by
      have := Int.natCast_pos.mpr hpos
      positivity
    have hb := jsRound_bounds (totalResolutionTime (filterTicketsByDate s e tickets))
      (1000 * 60 * 60 * ((resolvedOf (filterTicketsByDate s e tickets)).length : Int)) hhour
    have havg : (metricsFor s e tickets).avgResolutionHours =
        jsRound (totalResolutionTime (filterTicketsByDate s e tickets))
          (1000 * 60 * 60 * ((resolvedOf (filterTicketsByDate s e tickets)).length : Int)) := by
      simp [metricsFor, calculateMetrics_avg, hpos]
    rw [havg]
    exact hb

/-- C1 counterexample: one matching ticket resolved ten minutes after
creation — it has `resolved_at` set, yet the Avg Resolution card shows
N/A, refuting "never N/A when at least one matching ticket has
resolved_at set". -/
theorem avg_resolution_na_counterexample :
    (metricsFor none none quickSnapshot).resolved = 1 ∧
    avgResolutionDisplay (metricsFor none none quickSnapshot) = none := by
  constructor <;> decide

/-- C1 witness: durations {2h, 4h, 6h} give average exactly 4, and the
nearest-integer bounds of the amended theorem hold there. -/
theorem avg_resolution_amended_witness :
    (metricsFor none none threeResolvedSnapshot).avgResolutionHours = 4 ∧
    avgResolutionDisplay (metricsFor none none threeResolvedSnapshot) = some 4 ∧
    0 < (resolvedOf (filterTicketsByDate none none threeResolvedSnapshot)).length ∧
    ((1000 * 60 * 60 * ((resolvedOf (filterTicketsByDate none none threeResolvedSnapshot)).length : Int)) *
        (2 * (metricsFor none none threeResolvedSnapshot).avgResolutionHours - 1) ≤
      2 * totalResolutionTime (filterTicketsByDate none none threeResolvedSnapshot) ∧
    2 * totalResolutionTime (filterTicketsByDate none none threeResolvedSnapshot) <
      (1000 * 60 * 60 * ((resolvedOf (filterTicketsByDate none none threeResolvedSnapshot)).length : Int)) *
        (2 * (metricsFor none none threeResolvedSnapshot).avgResolutionHours + 1)) :=
  ⟨by decide, by decide, by decide,
    (avg_resolution_amended none none threeResolvedSnapshot).2.2 (by decide)⟩

/-- C2: the resolved (resp. closed) count is the number of matching
tickets with `resolved_at` (resp. `closed_at`) set — unchanged by any
reassignment of every ticket's current status; the resolution and
closure rate figures are 0 when the total is 0, and otherwise the
nearest integer to `resolved / total` (resp. `closed / total`)
expressed in percent. -/
theorem metrics_counts_and_rates (s e : Option Nat)
    (tickets : List TicketWithRelations) :
    (metricsFor s e tickets).resolved =
      ((filterTicketsByDate s e tickets).countP fun t => t.resolved_at.isSome) ∧
    (metricsFor s e tickets).closed =
      ((filterTicketsByDate s e tickets).countP fun t => t.closed_at.isSome) ∧
    (∀ st : Status,
      (metricsFor s e (tickets.map (setStatus st))).resolved =
        (metricsFor s e tickets).resolved ∧
      (metricsFor s e (tickets.map (setStatus st))).closed =
        (metricsFor s e tickets).closed) ∧
    ((metricsFor s e tickets).total = 0 →
      resolutionRatePct (metricsFor s e tickets) = 0 ∧
      closureRatePct (metricsFor s e tickets) = 0) ∧
    (0 < (metricsFor s e tickets).total →
      (((metricsFor s e tickets).total : Int) *
          (2 * resolutionRatePct (metricsFor s e tickets) - 1) ≤
        2 * (((metricsFor s e tickets).resolved : Int) * 100) ∧
      2 * (((metricsFor s e tickets).resolved : Int) * 100) <
        ((metricsFor s e tickets).total : Int) *
          (2 * resolutionRatePct (metricsFor s e tickets) + 1)) ∧
      (((metricsFor s e tickets).total : Int) *
          (2 * closureRatePct (metricsFor s e tickets) - 1) ≤
        2 * (((metricsFor s e tickets).closed : Int) * 100) ∧
      2 * (((metricsFor s e tickets).closed : Int) * 100) <
        ((metricsFor s e tickets).total : Int) *
          (2 * closureRatePct (metricsFor s e tickets) + 1))) := by
  refine ⟨?_, ?_, ?_, ?_, ?_⟩
  · simp [metricsFor, calculateMetrics_resolved, List.countP_eq_length_filter]
  · simp [metricsFor, calculateMetrics_closed, List.countP_eq_length_filter]
  · intro st
    have hmap := filterTicketsByDate_map s e (setStatus st) (fun _ => rfl) tickets
    constructor <;>
      simp [metricsFor, calculateMetrics_resolved, calculateMetrics_closed,
        hmap, List.filter_map, Function.comp_def, setStatus]
  · intro h0
    constructor <;> simp [resolutionRatePct, closureRatePct, h0]
  · intro hpos
    have ht : (0 : Int) < ((metricsFor s e tickets).total : Int) :=
      Int.natCast_pos.mpr hpos
    constructor
    · have hb := jsRound_bounds (((metricsFor s e tickets).resolved : Int) * 100)
        ((metricsFor s e tickets).total : Int) ht
      have hr : resolutionRatePct (metricsFor s e tickets) =
          jsRound (((metricsFor s e tickets).resolved : Int) * 100)
            ((metricsFor s e tickets).total : Int) := by
        simp [resolutionRatePct, hpos]
      rw [hr]
      exact hb
    · have hb := jsRound_bounds (((metricsFor s e tickets).closed : Int) * 100)
        ((metricsFor s e tickets).total : Int) ht
      have hr : closureRatePct (metricsFor s e tickets) =
          jsRound (((metricsFor s e tickets).closed : Int) * 100)
            ((metricsFor s e tickets).total : Int) := by
        simp [closureRatePct, hpos]
      rw [hr]
      exact hb

/-- C2 witness: a two-ticket snapshot with one resolved-and-closed
ticket gives resolved = closed = 1 and both rates 50%, the empty
snapshot gives rate 0, and the nearest-integer rate bounds hold. -/
theorem metrics_counts_and_rates_witness :
    (metricsFor none none halfResolvedSnapshot).resolved = 1 ∧
    (metricsFor none none halfResolvedSnapshot).closed = 1 ∧
    resolutionRatePct (metricsFor none none halfResolvedSnapshot) = 50 ∧
    resolutionRatePct (metricsFor none none ([] : List TicketWithRelations)) = 0 ∧
    0 < (metricsFor none none halfResolvedSnapshot).total ∧
    (((metricsFor none none halfResolvedSnapshot).total : Int) *
        (2 * resolutionRatePct (metricsFor none none halfResolvedSnapshot) - 1) ≤
      2 * (((metricsFor none none halfResolvedSnapshot).resolved : Int) * 100) ∧
    2 * (((metricsFor none none halfResolvedSnapshot).resolved : Int) * 100) <
      ((metricsFor none none halfResolvedSnapshot).total : Int) *
        (2 * resolutionRatePct (metricsFor none none halfResolvedSnapshot) + 1)) :=
  ⟨by decide, by decide, by decide,
    ((metrics_counts_and_rates none none ([] : List TicketWithRelations)).2.2.2.1
      (by decide)).1,
    by decide,
    ((metrics_counts_and_rates none none halfResolvedSnapshot).2.2.2.2
      (by decide)).1⟩

/-- C3 (amended): when the caller supplies an empty or absent
ticket number and at most 9998 existing numbers carry today's stem —
so the sequence value fits in four digits — the generated number is the
stem `SD-YYYYMMDD-` followed by the four-character zero-padded decimal
value of (count of same-day numbers) + 1.  At 9999 same-day numbers
the `LPAD` truncates the five-digit sequence value instead (see the
counterexample). -/
theorem ticket_numbering_amended (datePart : List Char)
    (existing : List (List Char)) (supplied : Option (List Char))
    (hsup : supplied = none ∨ supplied = some [])
    (hseq : (existing.countP fun tn => strStarts (ticketNumberStem datePart) tn) + 1 ≤ 9999) :
    set_ticket_number datePart existing supplied =
      ticketNumberStem datePart ++
        claimZeroPad4 (natToDec
          ((existing.countP fun tn => strStarts (ticketNumberStem datePart) tn) + 1)) ∧
    (claimZeroPad4 (natToDec
      ((existing.countP fun tn => strStarts (ticketNumberStem datePart) tn) + 1))).length = 4 := by
  have hlen := natToDec_length_le _ hseq
  constructor
  · rcases hsup with rfl | rfl <;>
      simp [set_ticket_number, generate_ticket_number,
        lpad4_eq_claimZeroPad4 _ hlen]
  · simp only [claimZeroPad4, List.length_append, List.length_replicate]
    omega

/-- C3 witness: on a day with no prior tickets the first sequential
creation yields suffix 0001 and the second yields 0002. -/
theorem ticket_numbering_amended_witness :
    (some ([] : List Char) = none ∨ some ([] : List Char) = some []) ∧
    (([] : List (List Char)).countP fun tn =>
      strStarts (ticketNumberStem "20240101".toList) tn) + 1 ≤ 9999 ∧
    set_ticket_number "20240101".toList [] (some []) =
      "SD-20240101-0001".toList ∧
    set_ticket_number "20240101".toList ["SD-20240101-0001".toList] (some []) =
      "SD-20240101-0002".toList := by
  refine ⟨Or.inr rfl, by decide, ?_, ?_⟩
  · rw [(ticket_numbering_amended "20240101".toList [] (some [])
      (Or.inr rfl) (by decide)).1]
    decide
  · rw [(ticket_numbering_amended "20240101".toList ["SD-20240101-0001".toList]
      (some []) (Or.inr rfl) (by decide)).1]
    decide

/-- C3 counterexample: with 9999 distinct existing numbers carrying
today's stem, the sequence value is 10000 and `LPAD(..., 4, '0')`
truncates it to `1000`: the generated number is `SD-20240101-1000`,
not the stem followed by the zero-padded decimal value of count + 1 —
so the claim's format statement fails for this set of existing
numbers. -/
theorem ticket_numbering_truncation_counterexample :
    crowdedDay.Nodup ∧
    (crowdedDay.countP fun tn =>
      strStarts (ticketNumberStem "20240101".toList) tn) = 9999 ∧
    generate_ticket_number "20240101".toList crowdedDay =
      "SD-20240101-1000".toList ∧
    generate_ticket_number "20240101".toList crowdedDay ≠
      ticketNumberStem "20240101".toList ++
        claimZeroPad4 (natToDec
          ((crowdedDay.countP fun tn =>
            strStarts (ticketNumberStem "20240101".toList) tn) + 1)) := by
  have hinj : Function.Injective
      fun i : Nat => "SD-20240101-".toList ++ List.replicate i '0' := by
    intro i j hij
    have h2 := List.append_cancel_left hij
    simpa using h2
  have hnodup : crowdedDay.Nodup := by
    unfold crowdedDay
    exact (List.nodup_range 9999).map hinj
  have hall : ∀ tn ∈ crowdedDay,
      strStarts (ticketNumberStem "20240101".toList) tn = true := by
    intro tn htn
    simp only [crowdedDay, List.mem_map] at htn
    obtain ⟨i, -, rfl⟩ := htn
    have hstem : ticketNumberStem "20240101".toList = "SD-20240101-".toList := by
      decide
    rw [hstem]
    exact strStarts_append _ _
  have hcount : (crowdedDay.countP fun tn =>
      strStarts (ticketNumberStem "20240101".toList) tn) = 9999 := by
    rw [List.countP_eq_length.mpr hall]
    simp [crowdedDay]
  have hgen : generate_ticket_number "20240101".toList crowdedDay =
      ticketNumberStem "20240101".toList ++
        lpad (natToDec ((crowdedDay.countP fun tn =>
          strStarts (ticketNumberStem "20240101".toList) tn) + 1)) 4 '0' := rfl
  refine ⟨hnodup, hcount, ?_, ?_⟩
  · rw [hgen, hcount]
    decide
  · rw [hgen, hcount]
    decide

theorem handleStatusChange_preserves_resolved (statuses : List Status)
    (sid now : Nat) (t : Ticket) (r : Nat) (h : t.resolved_at = some r) :
    (handleStatusChange statuses sid now t).resolved_at = some r := by
  have hno : t.resolved_at.isNone = false := by simp [h]
  simp [handleStatusChange, hno, dbUpdate, applyUpdate, h]

theorem handleStatusChange_preserves_closed (statuses : List Status)
    (sid now : Nat) (t : Ticket) (c : Nat) (h : t.closed_at = some c) :
    (handleStatusChange statuses sid now t).closed_at = some c := by
  have hno : t.closed_at.isNone = false := by simp [h]
  simp [handleStatusChange, hno, dbUpdate, applyUpdate, h]

/-- C4: on a status transition where the target status row is found,
a target named Resolved with `resolved_at` unset stamps `resolved_at =
now`; a target with `is_closed` and `closed_at` unset stamps
`closed_at = now`; the transition always sets `status_id`; and the two
checks are independent, so a target that is both stamps both fields in
that one transition. -/
theorem status_transition_stamps (statuses : List Status) (sid now : Nat)
    (t : Ticket) (s : Status)
    (hfind : (statuses.find? fun st => st.id == sid) = some s) :
    (s.name = "Resolved".toList → t.resolved_at = none →
      (handleStatusChange statuses sid now t).resolved_at = some now) ∧
    (s.is_closed = true → t.closed_at = none →
      (handleStatusChange statuses sid now t).closed_at = some now) ∧
    (handleStatusChange statuses sid now t).status_id = sid ∧
    (s.name = "Resolved".toList → s.is_closed = true → t.resolved_at = none →
      t.closed_at = none →
      (handleStatusChange statuses sid now t).resolved_at = some now ∧
      (handleStatusChange statuses sid now t).closed_at = some now) := by
  refine ⟨fun h1 h2 => ?_, fun h1 h2 => ?_, ?_, fun h1 h2 h3 h4 => ?_⟩
  · simp [handleStatusChange, hfind, Option.any, h1, h2, dbUpdate, applyUpdate]
  · simp [handleStatusChange, hfind, Option.any, h1, h2, dbUpdate, applyUpdate]
  · simp [handleStatusChange, dbUpdate, applyUpdate]
  · constructor <;>
      simp [handleStatusChange, hfind, Option.any, h1, h2, h3, h4,
        dbUpdate, applyUpdate]

/-- C4 witness: transitioning the fresh ticket into a status that is
both named Resolved and `is_closed` stamps both fields at once. -/
theorem status_transition_stamps_witness :
    (([resolvedClosedStatus].find? fun st => st.id == 6) =
      some resolvedClosedStatus) ∧
    (handleStatusChange [resolvedClosedStatus] 6 100
      (baseTicket none none)).resolved_at = some 100 ∧
    (handleStatusChange [resolvedClosedStatus] 6 100
      (baseTicket none none)).closed_at = some 100 ∧
    (handleStatusChange [resolvedClosedStatus] 6 100
      (baseTicket none none)).status_id = 6 := by
  have hfind : ([resolvedClosedStatus].find? fun st => st.id == 6) =
      some resolvedClosedStatus := by decide
  have h := status_transition_stamps [resolvedClosedStatus] 6 100
    (baseTicket none none) resolvedClosedStatus hfind
  exact ⟨hfind, (h.2.2.2 rfl rfl rfl rfl).1, (h.2.2.2 rfl rfl rfl rfl).2, h.2.2.1⟩

/-- C5: once `resolved_at` or `closed_at` is set on a ticket, no
sequence of status changes (including away from Resolved and back),
assignment changes or comment additions clears or overwrites it. -/
theorem lifecycle_stamps_monotonic (statuses : List Status)
    (ops : List TicketOp) (st : DeskState) (r c : Nat) :
    (st.ticket.resolved_at = some r →
      (runOps statuses st ops).ticket.resolved_at = some r) ∧
    (st.ticket.closed_at = some c →
      (runOps statuses st ops).ticket.closed_at = some c) := by
  induction ops generalizing st with
  | nil => exact ⟨id, id⟩
  | cons op ops ih =>
    refine ⟨fun h => ?_, fun h => ?_⟩
    · have hstep : (applyOp statuses st op).ticket.resolved_at = some r := by
        cases op with
        | statusChange sid now =>
          exact handleStatusChange_preserves_resolved statuses sid now _ r h
        | assignmentChange a now =>
          simpa [applyOp, handleAssignmentChange, dbUpdate, applyUpdate,
            TicketUpdate.empty] using h
        | addComment a x now => exact h
      exact (ih (applyOp statuses st op)).1 hstep
    · have hstep : (applyOp statuses st op).ticket.closed_at = some c := by
        cases op with
        | statusChange sid now =>
          exact handleStatusChange_preserves_closed statuses sid now _ c h
        | assignmentChange a now =>
          simpa [applyOp, handleAssignmentChange, dbUpdate, applyUpdate,
            TicketUpdate.empty] using h
        | addComment a x now => exact h
      exact (ih (applyOp statuses st op)).2 hstep

/-- C5 witness: a ticket resolved at 50 and closed at 60 keeps both
stamps across a reopen, a re-resolve, an assignment change and a
comment. -/
theorem lifecycle_stamps_monotonic_witness :
    (DeskState.mk (baseTicket (some 50) (some 60)) []).ticket.resolved_at =
      some 50 ∧
    (runOps [resolvedClosedStatus]
        (DeskState.mk (baseTicket (some 50) (some 60)) [])
        [.statusChange 1 100, .statusChange 6 200,
         .assignmentChange "Bob".toList 300,
         .addComment "Bob".toList "done".toList 400]).ticket.resolved_at =
      some 50 ∧
    (runOps [resolvedClosedStatus]
        (DeskState.mk (baseTicket (some 50) (some 60)) [])
        [.statusChange 1 100, .statusChange 6 200,
         .assignmentChange "Bob".toList 300,
         .addComment "Bob".toList "done".toList 400]).ticket.closed_at =
      some 60 :=
  ⟨rfl,
    (lifecycle_stamps_monotonic [resolvedClosedStatus]
      [.statusChange 1 100, .statusChange 6 200,
       .assignmentChange "Bob".toList 300,
       .addComment "Bob".toList "done".toList 400]
      (DeskState.mk (baseTicket (some 50) (some 60)) []) 50 60).1 rfl,
    (lifecycle_stamps_monotonic [resolvedClosedStatus]
      [.statusChange 1 100, .statusChange 6 200,
       .assignmentChange "Bob".toList 300,
       .addComment "Bob".toList "done".toList 400]
      (DeskState.mk (baseTicket (some 50) (some 60)) []) 50 60).2 rfl⟩

/-- C6: every row update sets `updated_at` to the mutation time,
overriding any client-supplied value — in particular the status-change
and assignment-change mutations do — and therefore `updated_at`
strictly increases whenever the clock has advanced past the previous
value. -/
theorem updated_at_policy (u : TicketUpdate) (now : Nat) (t : Ticket)
    (statuses : List Status) (sid : Nat) (assignee : List Char) (x : Nat) :
    (dbUpdate u now t).updated_at = now ∧
    (dbUpdate (setUpdatedAt u (some x)) now t).updated_at = now ∧
    (handleStatusChange statuses sid now t).updated_at = now ∧
    (handleAssignmentChange assignee now t).updated_at = now ∧
    (t.updated_at < now → t.updated_at < (dbUpdate u now t).updated_at) :=
  ⟨rfl, rfl, rfl, rfl, fun h => h⟩

/-- C6 witness: a client-supplied `updated_at = 7` is overridden to the
mutation time 10, strictly greater than the previous value 0. -/
theorem updated_at_policy_witness :
    (dbUpdate (setUpdatedAt TicketUpdate.empty (some 7)) 10
      (baseTicket none none)).updated_at = 10 ∧
    (baseTicket none none).updated_at < 10 ∧
    (baseTicket none none).updated_at <
      (dbUpdate TicketUpdate.empty 10 (baseTicket none none)).updated_at :=
  ⟨(updated_at_policy (setUpdatedAt TicketUpdate.empty (some 7)) 10
      (baseTicket none none) [] 1 [] 7).1,
   by decide,
   (updated_at_policy TicketUpdate.empty 10 (baseTicket none none) [] 1 [] 7).2.2.2.2
     (by decide)⟩

theorem matchesSearch_iff (term : List Char) (x : TicketWithRelations) :
    matchesSearch term x = true ↔
      IsSub term (lowerStr x.ticket_number) ∨ IsSub term (lowerStr x.title) ∨
      IsSub term (lowerStr x.description) ∨
      IsSub term (lowerStr x.requester_name) := by
  simp [matchesSearch, containsSub_iff, IsSub, or_assoc]

theorem filterTickets_mem (f : TicketFilter) (l : List TicketWithRelations)
    (x : TicketWithRelations) :
    x ∈ filterTickets f l ↔ x ∈ l ∧ matchesFilterP f x := by
  obtain ⟨st, c, p, s⟩ := f
  cases st <;> cases c <;> cases p <;> cases s <;>
    simp only [filterTickets, matchesFilterP, List.mem_filter,
      Option.some.injEq, beq_iff_eq, matchesSearch_iff, forall_eq',
      reduceCtorEq, false_implies, implies_true, true_and, and_true] <;>
    tauto

theorem filterTickets_pairwise (f : TicketFilter) (l : List TicketWithRelations)
    (h : l.Pairwise createdDesc) :
    (filterTickets f l).Pairwise createdDesc := by
  obtain ⟨st, c, p, s⟩ := f
  cases st <;> cases c <;> cases p <;> cases s <;>
    (simp only [filterTickets];
     repeat (first | exact h | apply List.Pairwise.filter))

/-- C8: the ticket list surface returns, in `created_at`-descending
order, exactly the loaded tickets that contain the search text as a
case-insensitive substring of ticket number, title, description or
requester name (when present) and exactly match each supplied
foreign-key filter; all supplied filters are ANDed and an absent
filter imposes no constraint. -/
theorem list_tickets_spec (f : TicketFilter)
    (snapshot : List TicketWithRelations) (x : TicketWithRelations) :
    (x ∈ listTickets f snapshot ↔ x ∈ snapshot ∧ matchesFilterP f x) ∧
    (listTickets f snapshot).Sorted createdDesc := by
  constructor
  · rw [listTickets, filterTickets_mem]
    simp [loadTickets]
  · exact filterTickets_pairwise f _
      (List.sorted_insertionSort createdDesc snapshot)

/-- C8 witness: searching `sd-2024` keeps exactly the ticket whose
number contains it case-insensitively, and the result is sorted. -/
theorem list_tickets_spec_witness :
    sampleTicket 1 100 none none ∈
      listTickets searchFilter [otherTicket, sampleTicket 1 100 none none] ∧
    otherTicket ∉
      listTickets searchFilter [otherTicket, sampleTicket 1 100 none none] ∧
    (listTickets searchFilter
      [otherTicket, sampleTicket 1 100 none none]).Sorted createdDesc := by
  refine ⟨?_, ?_,
    (list_tickets_spec searchFilter
      [otherTicket, sampleTicket 1 100 none none] otherTicket).2⟩
  · refine (list_tickets_spec searchFilter _ _).1.mpr ⟨by simp, ?_, ?_, ?_, ?_⟩
    · intro st hst
      simp only [searchFilter, Option.some.injEq] at hst
      subst hst
      exact Or.inl ((containsSub_iff _ _).mp (by decide))
    · exact fun c hc => Option.noConfusion hc
    · exact fun p hp => Option.noConfusion hp
    · exact fun s hs => Option.noConfusion hs
  · intro hmem
    have h := ((list_tickets_spec searchFilter _ _).1.mp hmem).2.1
      "sd-2024".toList rfl
    rcases h with h | h | h | h <;>
      exact absurd ((containsSub_iff _ _).mpr h) (by decide)

/-- C9 (amended): an add-comment call with text or author blank after
trimming is a silent no-op — nothing is persisted and, contrary to the
claim, no typed failure is surfaced (the handler returns plain void on
every path); with both fields non-blank a comment carrying
`created_at = now` is appended. -/
theorem add_comment_amended (now tid : Nat) (author text : List Char)
    (comments : List TicketComment) :
    ((trimStr text = [] ∨ trimStr author = []) →
      handleAddComment now tid author text comments = (none, comments)) ∧
    (trimStr text ≠ [] → trimStr author ≠ [] →
      handleAddComment now tid author text comments =
        (none, comments ++ [⟨tid, text, author, false, now⟩])) ∧
    (∀ e : ValidationError,
      (handleAddComment now tid author text comments).1 ≠ some e) := by
  refine ⟨fun h => ?_, fun h1 h2 => ?_, fun e => ?_⟩
  · unfold handleAddComment
    rcases h with h | h <;> simp [h]
  · simp [handleAddComment, h1, h2]
  · unfold handleAddComment
    split <;> simp

/-- C9 counterexample: blank text trims to empty and the spec-side
`addComment` fails with a `ValidationError`, but the code surfaces no
failure at all on the same input (while indeed persisting nothing) —
the operation does not fail with a distinguishable typed failure. -/
theorem add_comment_no_typed_failure_counterexample :
    trimStr "   ".toList = [] ∧
    addCommentSpec 100 1 "Ann".toList "   ".toList false [] =
      Except.error ValidationError.emptyField ∧
    handleAddComment 100 1 "Ann".toList "   ".toList [] = (none, []) := by
  have hblank : trimStr "   ".toList = ([] : List Char) := by decide
  refine ⟨hblank, ?_, by decide⟩
  unfold addCommentSpec
  rw [if_pos (Or.inl hblank)]

/-- C9 witness: a blank-text call is a no-op and a well-formed call
appends the comment stamped with the call time. -/
theorem add_comment_amended_witness :
    (trimStr "   ".toList = [] ∨ trimStr "Ann".toList = []) ∧
    handleAddComment 100 1 "Ann".toList "   ".toList [] = (none, []) ∧
    trimStr "done".toList ≠ [] ∧ trimStr "Ann".toList ≠ [] ∧
    handleAddComment 100 1 "Ann".toList "done".toList [] =
      (none, [⟨1, "done".toList, "Ann".toList, false, 100⟩]) :=
  ⟨Or.inl (by decide),
   (add_comment_amended 100 1 "Ann".toList "   ".toList []).1
     (Or.inl (by decide)),
   by decide, by decide,
   by simpa using
     (add_comment_amended 100 1 "Ann".toList "done".toList []).2.1
       (by decide) (by decide)⟩

/-- C10: every comment present after an add-comment call either was
already in the thread or carries `is_internal = false`: the public
add-comment surface hardcodes the flag to `false`. -/
theorem comments_not_internal (now tid : Nat) (author text : List Char)
    (comments : List TicketComment) (c : TicketComment) :
    c ∈ (handleAddComment now tid author text comments).2 →
      c ∈ comments ∨ c.is_internal = false := by
  unfold handleAddComment
  split
  · exact fun h => Or.inl h
  · intro h
    simp only [List.mem_append, List.mem_singleton] at h
    rcases h with h | rfl
    · exact Or.inl h
    · exact Or.inr rfl

/-- C10 witness: the freshly appended comment is not in the prior
(empty) thread, so the theorem pins its `is_internal` to `false`. -/
theorem comments_not_internal_witness :
    (⟨1, "done".toList, "Ann".toList, false, 100⟩ : TicketComment) ∈
      (handleAddComment 100 1 "Ann".toList "done".toList []).2 ∧
    ((⟨1, "done".toList, "Ann".toList, false, 100⟩ : TicketComment) ∈
        ([] : List TicketComment) ∨
      (⟨1, "done".toList, "Ann".toList, false, 100⟩ :
        TicketComment).is_internal = false) :=
  ⟨by decide,
   comments_not_internal 100 1 "Ann".toList "done".toList [] _ (by decide)⟩

end SD
